import Mathlib

/-!
A shallow embedding of the Grok image generation client (`main.py`) and a
verification of its natural-language specification.

The embedding models the generation-and-persistence pipeline
(`GrokImageGenerator.generate_images` together with its helpers
`save_image_from_url`, `save_image_from_b64` and `_generate_filename`),
the constructor credential logic (`GrokImageGenerator.__init__`), and the
two Flask request handlers (`api_generate_images` on `/generate` and the
`generate_image` handler registered by `api_server_mode` on
`/generate-image`).

Modelling conventions:
- The remote service call, the per-image HTTP byte fetch and the two
  clock readings (`datetime.now().isoformat()` and the
  `"%Y%m%d_%H%M%S"`-formatted value) are inputs, gathered in an `Env`
  record.  A fetch that fails for any reason (network error, non-2xx
  status raised by `raise_for_status`, timeout) is `none`.
- Python dictionaries with conditionally present keys are structures
  whose optional keys have `Option` type; `none` means the key is absent
  from the dictionary.
- Every observable effect is returned as data: the single generation
  request that is issued, the list of HTTP fetches performed (URL and
  timeout), and the list of file writes (path and bytes).
- Python string truthiness (`if image_info['url']:`) is modelled by
  `truthy`: `None` and the empty string are falsy.
- `base64.b64decode` (non-validating, as called by the code) is modelled
  by `pyB64Decode`, a translation of CPython's `binascii.a2b_base64`
  in its default non-strict mode: characters outside the base64
  alphabet are discarded, `'='` only ends the data once it completes a
  quad, and a trailing incomplete quad is an error.
-/

namespace Grok

/-- One item of the remote service's `response.data` list: the attributes
of an image object that `generate_images` reads.  `url` or `b64_json`
being `none` models the attribute being absent or `None`. -/
structure ImageData where
  revised_prompt : String
  url : Option String
  b64_json : Option String
deriving Repr, DecidableEq

/-- The remote service's response: an ordered list of image objects. -/
structure ResponseData where
  data : List ImageData
deriving Repr, DecidableEq

/-- The argument record of the one call to `client.images.generate`. -/
structure GenRequest where
  model : String
  prompt : String
  n : Int
  response_format : String
deriving Repr, DecidableEq

/-- One entry of the result's `images` list, as built by the loop body of
`generate_images`. -/
structure ImageInfo where
  index : Nat
  revised_prompt : String
  url : Option String
  b64_json : Option String
  saved_path : Option String
deriving Repr, DecidableEq

/-- The dictionary returned by `generate_images`.  Keys that are present
only in one of the two branches (`count`, `images`, `timestamp` in the
success branch; `error` in the failure branch) have `Option` type, with
`none` meaning the key is absent from the dictionary. -/
structure GenResult where
  success : Bool
  original_prompt : String
  count : Option Nat
  images : Option (List ImageInfo)
  timestamp : Option String
  error : Option String
deriving Repr, DecidableEq

/-- The external world as seen by one `generate_images` call: the remote
generation service (`client.images.generate`, which either returns a
response or raises, i.e. `Except.error` with the exception's message),
the per-URL byte fetch (`requests.get` with a timeout in seconds;
`none` models any raised fetch error), and the two clock readings. -/
structure Env where
  service : GenRequest → Except String ResponseData
  fetchUrl : String → Nat → Option (List Nat)
  now_iso : String
  now_file : String

/-- The trace of effects of one `generate_images` call: the request that
was issued to the remote service, every HTTP byte fetch performed
(URL, timeout seconds), and every file write performed (path, bytes). -/
structure Trace where
  request : GenRequest
  fetches : List (String × Nat)
  writes : List (String × List Nat)
deriving Repr, DecidableEq

/-- The timeout, in seconds, that `save_image_from_url` passes to
`requests.get`. -/
def REQUEST_TIMEOUT : Nat := 30

/-- The fixed output directory `generated_images` created by the
constructor. -/
def OUTPUT_DIR : String := "generated_images"

/-- Python `f"{index:02d}"`: decimal rendering, zero-padded to a minimum
width of two digits. -/
def pad2 (n : Nat) : String :=
  if n < 10 then "0" ++ toString n else toString n

/-- Translation of `GrokImageGenerator._generate_filename`: filter the
prompt's characters with `c.isalnum() or c in (' ', '-', '_')`, strip
trailing whitespace (`rstrip`), replace spaces with underscores, keep
the first 50 characters, then assemble
`output_dir / f"{safe_prompt}_{timestamp}_{index:02d}.{extension}"`.
The timestamp (Python reads `datetime.now().strftime("%Y%m%d_%H%M%S")`)
is an explicit argument here. -/
def generate_filename (prompt : String) (index : Nat) (timestamp : String)
    (extension : String) : String :=
  let kept := prompt.data.filter fun c =>
    c.isAlphanum || c == ' ' || c == '-' || c == '_'
  let stripped := (kept.reverse.dropWhile Char.isWhitespace).reverse
  let safe_prompt := (stripped.map fun c => if c == ' ' then '_' else c).take 50
  OUTPUT_DIR ++ "/" ++ String.mk safe_prompt ++ "_" ++ timestamp ++ "_"
    ++ pad2 index ++ "." ++ extension

/-- The value of a standard base64 alphabet character, `none` for every
other character (which CPython's non-strict `a2b_base64` discards). -/
def b64Val (c : Char) : Option Nat :=
  if 'A' ≤ c ∧ c ≤ 'Z' then some (c.toNat - 'A'.toNat)
  else if 'a' ≤ c ∧ c ≤ 'z' then some (c.toNat - 'a'.toNat + 26)
  else if '0' ≤ c ∧ c ≤ '9' then some (c.toNat - '0'.toNat + 52)
  else if c = '+' then some 62
  else if c = '/' then some 63
  else none

/-- Translation of the decoding loop of CPython's `binascii.a2b_base64`
in its default non-strict mode.  State: position inside the current
quad (0-3), the bits carried over from the previous character, the
count of consecutive pad characters seen at quad position ≥ 2, and the
bytes produced so far (in reverse).  A `'='` at quad position < 2 is
skipped; at quad position ≥ 2 it ends the data once enough pads
complete the quad.  Any other non-alphabet character is skipped.  A
trailing incomplete quad is an error (`none`). -/
def a2bLoop : List Char → Nat → Nat → Nat → List Nat → Option (List Nat)
  | [], quadPos, _, _, acc =>
      if quadPos = 0 then some acc.reverse else none
  | c :: rest, quadPos, leftchar, pads, acc =>
      if c = '=' then
        if 2 ≤ quadPos then
          if 4 ≤ quadPos + (pads + 1) then some acc.reverse
          else a2bLoop rest quadPos leftchar (pads + 1) acc
        else a2bLoop rest quadPos leftchar pads acc
      else
        match b64Val c with
        | none => a2bLoop rest quadPos leftchar pads acc
        | some v =>
          match quadPos with
          | 0 => a2bLoop rest 1 v 0 acc
          | 1 => a2bLoop rest 2 (v % 16) 0 ((leftchar * 4 + v / 16) :: acc)
          | 2 => a2bLoop rest 3 (v % 4) 0 ((leftchar * 16 + v / 4) :: acc)
          | _ => a2bLoop rest 0 0 0 ((leftchar * 64 + v) :: acc)

/-- Model of `base64.b64decode` as called by the code (no `validate`
flag): the string must be ASCII (CPython's `_bytes_from_decode_data`
encodes it as ASCII first), then `a2b_base64` decodes it leniently.
`none` models the raised `binascii.Error` / `ValueError`. -/
def pyB64Decode (s : String) : Option (List Nat) :=
  if s.data.any (fun c => 127 < c.toNat) then none
  else a2bLoop s.data 0 0 0 []

/-- The characters after the first comma, `none` when there is no comma.
Models `s.split(',', 1)[1]`, whose `[1]` raises `IndexError` when the
string contains no comma. -/
def afterFirstComma : List Char → Option (List Char)
  | [] => none
  | c :: rest => if c = ',' then some rest else afterFirstComma rest

/-- Models Python `s.startswith(pat)` on character lists. -/
def startsWithChars : List Char → List Char → Bool
  | _, [] => true
  | [], _ :: _ => false
  | c :: cs, d :: ds => c == d && startsWithChars cs ds

/-- Models Python `pat in s` (substring containment) on character lists. -/
def hasSubstring : List Char → List Char → Bool
  | [], pat => pat.isEmpty
  | c :: rest, pat => startsWithChars (c :: rest) pat || hasSubstring rest pat

/-- Translation of `GrokImageGenerator.save_image_from_url`: fetch the
bytes with `requests.get(image_url, timeout=30)` and write them to
`filename`.  Returns the boolean the Python function returns, the
fetch performed, and the writes performed; any fetch error is caught
and yields `False` with no write. -/
def save_image_from_url (env : Env) (image_url : String) (filename : String) :
    Bool × List (String × Nat) × List (String × List Nat) :=
  match env.fetchUrl image_url REQUEST_TIMEOUT with
  | some content => (true, [(image_url, REQUEST_TIMEOUT)], [(filename, content)])
  | none => (false, [(image_url, REQUEST_TIMEOUT)], [])

/-- Translation of `GrokImageGenerator.save_image_from_b64`: if the
payload starts with `"data:image"`, replace it by the part after the
first comma (`s.split(',', 1)[1]`; when there is no comma the
`IndexError` is caught by the surrounding `except` and the function
returns `False`); then base64-decode and write the bytes.  A decode
error is likewise caught and yields `False` with no write.  Returns
the boolean result and the writes performed. -/
def save_image_from_b64 (b64_string : String) (filename : String) :
    Bool × List (String × List Nat) :=
  if startsWithChars b64_string.data "data:image".data then
    match afterFirstComma b64_string.data with
    | none => (false, [])
    | some rest =>
        match pyB64Decode (String.mk rest) with
        | some image_data => (true, [(filename, image_data)])
        | none => (false, [])
  else
    match pyB64Decode b64_string with
    | some image_data => (true, [(filename, image_data)])
    | none => (false, [])

/-- Python truthiness of an optional string: `None` and `""` are falsy. -/
def truthy : Option String → Bool
  | none => false
  | some s => s ≠ ""

/-- The auto-save step of the loop body of `generate_images` for the
image at 0-based position `i`: under `if save_images:`, URL mode saves
via `save_image_from_url` when `format_type == "url"` and the url is
truthy, BASE64 mode saves via `save_image_from_b64` when
`format_type == "b64_json"` and the payload is truthy; otherwise
nothing happens.  Returns the `saved_path` value the loop body leaves
in the image dictionary, plus the fetches and writes performed. -/
def attemptSave (env : Env) (prompt : String) (format_type : String)
    (save_images : Bool) (i : Nat) (d : ImageData) :
    Option String × List (String × Nat) × List (String × List Nat) :=
  if save_images then
    if format_type = "url" ∧ truthy d.url = true then
      let filename := generate_filename prompt (i + 1) env.now_file "jpg"
      let saved := save_image_from_url env (d.url.getD "") filename
      (if saved.1 then some filename else none, saved.2.1, saved.2.2)
    else if format_type = "b64_json" ∧ truthy d.b64_json = true then
      let filename := generate_filename prompt (i + 1) env.now_file "jpg"
      let saved := save_image_from_b64 (d.b64_json.getD "") filename
      (if saved.1 then some filename else none, [], saved.2)
    else (none, [], [])
  else (none, [], [])

/-- The full loop body of `generate_images` for the image at 0-based
position `i`: build the `image_info` dictionary (1-based `index`,
`revised_prompt`, `url`, `b64_json` copied from the service's image
object, `saved_path` initially `None`), then run the auto-save step. -/
def processOne (env : Env) (prompt : String) (format_type : String)
    (save_images : Bool) (i : Nat) (d : ImageData) :
    ImageInfo × List (String × Nat) × List (String × List Nat) :=
  let saved := attemptSave env prompt format_type save_images i d
  ({ index := i + 1, revised_prompt := d.revised_prompt, url := d.url,
     b64_json := d.b64_json, saved_path := saved.1 }, saved.2.1, saved.2.2)

/-- The `for i, image_data in enumerate(response.data)` loop of
`generate_images`, starting at 0-based position `i`: the built image
dictionaries in order and the concatenated fetches and writes. -/
def processImages (env : Env) (prompt : String) (format_type : String)
    (save_images : Bool) :
    Nat → List ImageData → List ImageInfo × List (String × Nat) × List (String × List Nat)
  | _, [] => ([], [], [])
  | i, d :: rest =>
      let head := processOne env prompt format_type save_images i d
      let tail := processImages env prompt format_type save_images (i + 1) rest
      (head.1 :: tail.1, head.2.1 ++ tail.2.1, head.2.2 ++ tail.2.2)

/-- The argument record of the `client.images.generate` call made by
`generate_images`: `model="grok-2-image"`, the prompt, `n=count` and
`response_format=format_type`, each passed through unchanged. -/
def mkRequest (prompt : String) (count : Int) (format_type : String) : GenRequest :=
  { model := "grok-2-image", prompt := prompt, n := count,
    response_format := format_type }

/-- Translation of `GrokImageGenerator.generate_images`: issue one
request to the remote service; on success build the result dictionary
(`success=True`, `count=len(response.data)`, the images list from the
loop, `timestamp=datetime.now().isoformat()`); on any exception from
the service return the failure dictionary
`{'success': False, 'error': str(e), 'original_prompt': prompt}`,
which carries no `count`, `images` or `timestamp` key.  The second
component is the trace of effects. -/
def generate_images (env : Env) (prompt : String) (count : Int)
    (format_type : String) (save_images : Bool) : GenResult × Trace :=
  let req : GenRequest := mkRequest prompt count format_type
  match env.service req with
  | Except.error e =>
      ({ success := false, original_prompt := prompt, count := none,
         images := none, timestamp := none, error := some e },
       { request := req, fetches := [], writes := [] })
  | Except.ok response =>
      let processed := processImages env prompt format_type save_images 0 response.data
      ({ success := true, original_prompt := prompt,
         count := some response.data.length, images := some processed.1,
         timestamp := some env.now_iso, error := none },
       { request := req, fetches := processed.2.1, writes := processed.2.2 })

/-- The count clamp performed by the interactive front end
(`count = max(1, min(10, count))`) before it invokes the pipeline. -/
def interactive_count_clamp (count : Int) : Int := max 1 (min 10 count)

/-- The key literal hardcoded as the fallback in
`GrokImageGenerator.__init__` (`api_key or "xai-wxr9..."`). -/
def HARDCODED_API_KEY : String :=
  "xai-wxr9EEv2LIgSUkUSpUq9j8fWUPoEmxRf5cBXOTj5pzrzlqWwsraw2amkVTVLmXDfViOhdgKLddq08pms"

/-- The placeholder the constructor compares the key against
(`if self.api_key == "xai-YOUR_API_KEY_HERE":`). -/
def API_KEY_PLACEHOLDER : String := "xai-YOUR_API_KEY_HERE"

/-- Outcome of running `GrokImageGenerator.__init__`: either the process
terminates (`sys.exit(1)`) or the generator is constructed and the
OpenAI client is initialized with the given key. -/
inductive InitOutcome where
  | exitProcess (code : Nat)
  | initialized (key : String)
deriving Repr, DecidableEq

/-- Translation of the credential logic of `GrokImageGenerator.__init__`.
`api_key = None` (and, by Python `or`, also `api_key = ""`) falls back
to the hardcoded key constant.  Only when the resulting key equals the
placeholder literal is the `XAI_API_KEY` environment variable
consulted (an unset or empty variable is falsy and leads to
`sys.exit(1)`). -/
def grokInit (api_key : Option String) (env_key : Option String) : InitOutcome :=
  let key := match api_key with
    | some k => if k = "" then HARDCODED_API_KEY else k
    | none => HARDCODED_API_KEY
  if key = API_KEY_PLACEHOLDER then
    match env_key with
    | some ek => if ek = "" then InitOutcome.exitProcess 1 else InitOutcome.initialized ek
    | none => InitOutcome.exitProcess 1
  else InitOutcome.initialized key

/-- A JSON request body as read by the Flask handlers.  `none` on a field
means the key is absent from the body; `is_json` models
`request.is_json`. -/
structure ApiBody where
  is_json : Bool
  prompt : Option String
  count : Option Int
  format : Option String
  save_images : Option Bool

/-- Translation of the module-level `/generate` handler
(`api_generate_images`): read the fields with their defaults
(count 1, format `"url"`, save_images `True`), return 400 when the
prompt is missing or falsy, otherwise invoke the pipeline with the
fields exactly as read (no clamping, no format validation) and return
the result with status 200.  The third component is the pipeline trace,
`none` when the pipeline was never invoked. -/
def api_generate_images_route (env : Env) (body : ApiBody) :
    Nat × Option GenResult × Option Trace :=
  let prompt := body.prompt.getD ""
  let count := body.count.getD 1
  let format_type := body.format.getD "url"
  let save_images := body.save_images.getD true
  if prompt = "" then (400, none, none)
  else
    let run := generate_images env prompt count format_type save_images
    (200, some run.1, some run.2)

/-- Translation of the `/generate-image` handler registered by
`api_server_mode`: 400 when the request is not JSON or the `prompt`
key is absent; otherwise count defaults to 1 and is clamped with
`min(max(1, ...), 10)`, format defaults to `"url"` and any value
outside `['url', 'b64_json']` falls back to `"url"`, `save_images`
defaults to `True`, and the pipeline's result is returned (Flask's
default status 200).  The third component is the pipeline trace,
`none` when the pipeline was never invoked. -/
def generate_image_route (env : Env) (body : ApiBody) :
    Nat × Option GenResult × Option Trace :=
  if body.is_json = false then (400, none, none)
  else
    match body.prompt with
    | none => (400, none, none)
    | some prompt =>
        let count := min (max 1 (body.count.getD 1)) 10
        let format0 := body.format.getD "url"
        let format_type := if format0 = "url" ∨ format0 = "b64_json" then format0 else "url"
        let save_images := body.save_images.getD true
        let run := generate_images env prompt count format_type save_images
        (200, some run.1, some run.2)

/-!  Specification-side definitions.  These follow the words of the
specification (or of an amended claim) rather than the code; each is
compared with the corresponding code translation above. -/

/-- The filename as the specification words it: take the prompt, remove
every character that is not alphanumeric, space, hyphen, or
underscore; trim trailing whitespace; replace spaces with underscores;
truncate to 50 characters; append an underscore, the timestamp at
second precision, an underscore, the 2-digit zero-padded image index,
and the extension `.jpg`; place the result under the fixed output
directory. -/
def specFilename (prompt : String) (index : Nat) (timestamp : String) : String :=
  let removedBad := prompt.data.filter fun c =>
    !(!c.isAlphanum && !(c == ' ') && !(c == '-') && !(c == '_'))
  let trimmed := (removedBad.reverse.dropWhile Char.isWhitespace).reverse
  let underscored := trimmed.map fun c => if c == ' ' then '_' else c
  let truncated := underscored.take 50
  OUTPUT_DIR ++ "/" ++ String.mk truncated ++ "_" ++ timestamp ++ "_"
    ++ pad2 index ++ "." ++ "jpg"

/-- Whether a payload begins with a data-URI introduction of the form
`data:image/...;base64,` as the claim words it: it starts with
`data:image/` and contains the `;base64,` marker. -/
def hasDataUriForm (s : String) : Bool :=
  startsWithChars s.data "data:image/".data && hasSubstring s.data ";base64,".data

/-- The stripping step of `save_image_from_b64` as the amended claim
words it: a payload beginning with `data:image` is replaced by
everything after its first comma, and is rejected (`none`, a caught
per-image failure) when it contains no comma; any other payload is
kept as-is. -/
def specB64Strip (s : String) : Option String :=
  if startsWithChars s.data "data:image".data then
    (afterFirstComma s.data).map String.mk
  else some s

/-- Decoding and writing a (stripped) payload: on a successful decode
the bytes are written to `filename` and the save reports `True`; on a
decode failure nothing is written and the save reports `False`. -/
def b64DecodeAndWrite (s : String) (filename : String) :
    Bool × List (String × List Nat) :=
  match pyB64Decode s with
  | some image_data => (true, [(filename, image_data)])
  | none => (false, [])

/-!  Helper lemmas about the processing loop. -/

theorem processImages_length (env : Env) (p f : String) (s : Bool) :
    ∀ (i : Nat) (ds : List ImageData),
      (processImages env p f s i ds).1.length = ds.length := by
  intro i ds
  induction ds generalizing i with
  | nil => simp [processImages]
  | cons d rest ih => simp [processImages, ih]

theorem processImages_get (env : Env) (p f : String) (s : Bool) :
    ∀ (i : Nat) (ds : List ImageData) (j : Nat) (hj : j < ds.length)
      (hl : j < (processImages env p f s i ds).1.length),
      (processImages env p f s i ds).1.get ⟨j, hl⟩ =
        (processOne env p f s (i + j) (ds.get ⟨j, hj⟩)).1 := by
  intro i ds
  induction ds generalizing i with
  | nil => intro j hj; exact absurd hj (by simp)
  | cons d rest ih =>
      intro j hj hl
      cases j with
      | zero => simp [processImages]
      | succ k =>
          have hk : k < rest.length := Nat.lt_of_succ_lt_succ hj
          have hk2 : k < (processImages env p f s (i + 1) rest).1.length := by
            rw [processImages_length]; exact hk
          have := ih (i + 1) k hk hk2
          simp only [processImages, List.get]
          rw [this]
          have harith : i + 1 + k = i + (k + 1) := by omega
          rw [harith]

theorem processImages_fetch_timeout (env : Env) (p f : String) (s : Bool) :
    ∀ (i : Nat) (ds : List ImageData) (e : String × Nat),
      e ∈ (processImages env p f s i ds).2.1 → e.2 = REQUEST_TIMEOUT := by
  intro i ds
  induction ds generalizing i with
  | nil => intro e he; simp [processImages] at he
  | cons d rest ih =>
      intro e he
      simp only [processImages, List.mem_append] at he
      rcases he with he | he
      · revert he
        unfold processOne attemptSave save_image_from_url
        split
        · split
          · cases env.fetchUrl (d.url.getD "") REQUEST_TIMEOUT <;>
              · intro he; simp at he; simp [he]
          · split
            · intro he; simp at he
            · intro he; simp at he
        · intro he; simp at he
      · exact ih (i + 1) e he

theorem attemptSave_no_save (env : Env) (p f : String) (s : Bool) (i : Nat)
    (d : ImageData) (h : s = false ∨ (f ≠ "url" ∧ f ≠ "b64_json")) :
    attemptSave env p f s i d = (none, [], []) := by
  rcases h with h | ⟨h1, h2⟩
  · simp [attemptSave, h]
  · simp [attemptSave, h1, h2]

theorem processImages_no_save (env : Env) (p f : String) (s : Bool)
    (h : s = false ∨ (f ≠ "url" ∧ f ≠ "b64_json")) :
    ∀ (i : Nat) (ds : List ImageData),
      (processImages env p f s i ds).2.1 = [] ∧
      (processImages env p f s i ds).2.2 = [] ∧
      ∀ info ∈ (processImages env p f s i ds).1, info.saved_path = none := by
  intro i ds
  induction ds generalizing i with
  | nil => simp [processImages]
  | cons d rest ih =>
      obtain ⟨h1, h2, h3⟩ := ih (i + 1)
      refine ⟨?_, ?_, ?_⟩
      · simp [processImages, h1, processOne, attemptSave_no_save env p f s i d h]
      · simp [processImages, h2, processOne, attemptSave_no_save env p f s i d h]
      · intro info hinfo
        simp only [processImages, List.mem_cons] at hinfo
        rcases hinfo with hinfo | hinfo
        · subst hinfo
          simp [processOne, attemptSave_no_save env p f s i d h]
        · exact h3 info hinfo

/-!  Concrete environments used by the per-claim witness and
counterexample theorems. -/

/-- An environment whose remote service always raises. -/
def envC1 : Env :=
  { service := fun _ => Except.error "Connection error"
    fetchUrl := fun _ _ => none
    now_iso := "2024-01-01T00:00:00"
    now_file := "20240101_000000" }

/-- An environment whose remote service always raises, used for the C2
counterexample. -/
def envC2 : Env :=
  { service := fun _ => Except.error "boom"
    fetchUrl := fun _ _ => none
    now_iso := "2024-01-01T00:00:00"
    now_file := "20240101_000000" }

/-- C1: for every input, `generate_images` never raises to its caller:
when the remote generation call fails for any reason, it returns a
result record with `success = false` and `error` set to the raised
exception's message, with no partial images list, as data rather than
a propagated exception.  (The model is a total function, so the only
content to check is the failure branch's record.) -/
theorem c1_generate_images_failure_returned_as_data (env : Env) (prompt : String)
    (count : Int) (format_type : String) (save_images : Bool) (e : String)
    (h : env.service (mkRequest prompt count format_type) = Except.error e) :
    (generate_images env prompt count format_type save_images).1 =
      { success := false, original_prompt := prompt, count := none,
        images := none, timestamp := none, error := some e } := by
  simp [generate_images, h]

theorem c1_witness :
    envC1.service (mkRequest "a red fox" 1 "url") = Except.error "Connection error" ∧
    (generate_images envC1 "a red fox" 1 "url" true).1 =
      { success := false, original_prompt := "a red fox", count := none,
        images := none, timestamp := none, error := some "Connection error" } :=
  ⟨rfl, c1_generate_images_failure_returned_as_data envC1 "a red fox" 1 "url" true
      "Connection error" rfl⟩

/-- C2 counterexample: the claim says `generate_images` clamps `count`
into [1,10] before issuing the remote request; but at `count = 0` the
request issued to the service carries `n = 0`, below the claimed lower
bound. -/
theorem c2_counterexample :
    (generate_images envC2 "a red fox" 0 "url" true).2.request.n = 0 ∧
    ¬ (1 ≤ (generate_images envC2 "a red fox" 0 "url" true).2.request.n) := by
  refine ⟨rfl, ?_⟩
  decide

/-- C2 amended: `generate_images` performs no clamping at all — the
request it issues carries exactly the `count` it was given; the
clamping into [1,10] is done by the front ends (here: the interactive
front end's `max(1, min(10, count))`, which always lands in [1,10])
before they invoke the pipeline. -/
theorem c2_amended_count_forwarded_unclamped (env : Env) (p : String) (c : Int)
    (f : String) (s : Bool) :
    (generate_images env p c f s).2.request.n = c ∧
    1 ≤ interactive_count_clamp c ∧ interactive_count_clamp c ≤ 10 := by
  refine ⟨?_, ?_, ?_⟩
  · cases h : env.service (mkRequest p c f) with
    | error e => simp [generate_images, h]; rfl
    | ok r => simp [generate_images, h]; rfl
  · unfold interactive_count_clamp; omega
  · unfold interactive_count_clamp; omega

/-- C4: filename derivation is a pure deterministic function of
(prompt, index, timestamp) — here a Lean function of exactly those
inputs — and it performs precisely the steps the specification lists:
the code translation `generate_filename` (with extension `"jpg"`, the
only extension the pipeline passes) coincides with `specFilename`,
which is written from the specification's words.  (Both read
"alphanumeric" as the ASCII ranges; Python's `str.isalnum` extends the
same test to Unicode.) -/
theorem c4_filename_derivation (p : String) (i : Nat) (t : String) :
    generate_filename p i t "jpg" = specFilename p i t := by
  have hpred : ∀ c : Char, (c.isAlphanum || c == ' ' || c == '-' || c == '_')
      = !(!c.isAlphanum && !(c == ' ') && !(c == '-') && !(c == '_')) := by
    intro c
    simp [Bool.not_and, Bool.not_not]
  unfold generate_filename specFilename
  simp only [hpred]

/-- C9: the claim says a missing credential (no explicit key, no
environment key) makes construction exit the process before any
request; in the code the hardcoded fallback key is not the placeholder
the guard compares against, so construction succeeds with the
hardcoded key instead — the environment variable is never consulted
and no exit happens.  This theorem evaluates the constructor model at
the failing input. -/
theorem c9_hardcoded_key_no_exit :
    grokInit none none = InitOutcome.initialized HARDCODED_API_KEY ∧
    HARDCODED_API_KEY ≠ API_KEY_PLACEHOLDER := by
  constructor
  · decide
  · decide

/-- C3: for every successful call, the returned `count` equals the number
of descriptors the service returned (which is also the length of the
`images` list), the images appear in the order returned by the
service, and each descriptor's `index` is its 1-based position. -/
theorem c3_success_count_and_order (env : Env) (p : String) (c : Int)
    (f : String) (s : Bool) (resp : ResponseData)
    (h : env.service (mkRequest p c f) = Except.ok resp) :
    (generate_images env p c f s).1.success = true ∧
    (generate_images env p c f s).1.count = some resp.data.length ∧
    ∃ infos, (generate_images env p c f s).1.images = some infos ∧
      infos.length = resp.data.length ∧
      ∀ (j : Nat) (hj : j < resp.data.length) (hl : j < infos.length),
        (infos.get ⟨j, hl⟩).index = j + 1 ∧
        (infos.get ⟨j, hl⟩).revised_prompt = (resp.data.get ⟨j, hj⟩).revised_prompt ∧
        (infos.get ⟨j, hl⟩).url = (resp.data.get ⟨j, hj⟩).url ∧
        (infos.get ⟨j, hl⟩).b64_json = (resp.data.get ⟨j, hj⟩).b64_json := by
  refine ⟨by simp [generate_images, h], by simp [generate_images, h],
    (processImages env p f s 0 resp.data).1, by simp [generate_images, h],
    processImages_length env p f s 0 resp.data, ?_⟩
  intro j hj hl
  rw [processImages_get env p f s 0 resp.data j hj hl]
  simp [processOne]

/-- The environment used by the C3 witness: the service returns two
descriptors in URL mode. -/
def envC3 : Env :=
  { service := fun _ => Except.ok
      { data := [ { revised_prompt := "first fox", url := some "http://a/1.jpg",
                    b64_json := none },
                  { revised_prompt := "second fox", url := some "http://a/2.jpg",
                    b64_json := none } ] }
    fetchUrl := fun _ _ => none
    now_iso := "2024-01-01T00:00:00"
    now_file := "20240101_000000" }

theorem c3_witness :
    envC3.service (mkRequest "a red fox" 2 "url") = Except.ok
      { data := [ { revised_prompt := "first fox", url := some "http://a/1.jpg",
                    b64_json := none },
                  { revised_prompt := "second fox", url := some "http://a/2.jpg",
                    b64_json := none } ] } ∧
    (generate_images envC3 "a red fox" 2 "url" true).1.count = some 2 :=
  ⟨rfl, (c3_success_count_and_order envC3 "a red fox" 2 "url" true
      { data := [ { revised_prompt := "first fox", url := some "http://a/1.jpg",
                    b64_json := none },
                  { revised_prompt := "second fox", url := some "http://a/2.jpg",
                    b64_json := none } ] } rfl).2.1⟩

/-- C5: in URL mode with persistence on, every HTTP fetch performed uses
the fixed 30-second timeout, the overall result keeps `success = true`
regardless of fetch outcomes, and per image: a failed fetch leaves its
`saved_path` unset while a successful fetch sets it to the derived
filename — so one image's fetch failure never affects its siblings. -/
theorem c5_url_fetch_isolation (env : Env) (p : String) (c : Int)
    (resp : ResponseData)
    (h : env.service (mkRequest p c "url") = Except.ok resp) :
    (generate_images env p c "url" true).1.success = true ∧
    (∀ e ∈ (generate_images env p c "url" true).2.fetches, e.2 = REQUEST_TIMEOUT) ∧
    ∃ infos, (generate_images env p c "url" true).1.images = some infos ∧
      infos.length = resp.data.length ∧
      ∀ (j : Nat) (hj : j < resp.data.length) (hl : j < infos.length) (u : String),
        (resp.data.get ⟨j, hj⟩).url = some u → u ≠ "" →
        ((env.fetchUrl u REQUEST_TIMEOUT = none →
            (infos.get ⟨j, hl⟩).saved_path = none) ∧
         (∀ b, env.fetchUrl u REQUEST_TIMEOUT = some b →
            (infos.get ⟨j, hl⟩).saved_path =
              some (generate_filename p (j + 1) env.now_file "jpg"))) := by
  refine ⟨by simp [generate_images, h], ?_,
    (processImages env p "url" true 0 resp.data).1, by simp [generate_images, h],
    processImages_length env p "url" true 0 resp.data, ?_⟩
  · intro e he
    refine processImages_fetch_timeout env p "url" true 0 resp.data e ?_
    simpa [generate_images, h] using he
  · intro j hj hl u hu hne
    rw [processImages_get env p "url" true 0 resp.data j hj hl]
    simp only [processOne, attemptSave, if_true]
    rw [hu]
    have htr : truthy (some u) = true := by simp [truthy, hne]
    constructor
    · intro hfetch
      simp [htr, save_image_from_url, hfetch, Option.getD]
    · intro b hfetch
      simp [htr, save_image_from_url, hfetch, Option.getD]

/-- The environment used by the C5 witness: two URL-mode descriptors,
the first URL's fetch fails, the second succeeds. -/
def envC5 : Env :=
  { service := fun _ => Except.ok
      { data := [ { revised_prompt := "first fox", url := some "http://bad/1.jpg",
                    b64_json := none },
                  { revised_prompt := "second fox", url := some "http://good/2.jpg",
                    b64_json := none } ] }
    fetchUrl := fun u _ => if u = "http://good/2.jpg" then some [1, 2, 3] else none
    now_iso := "2024-01-01T00:00:00"
    now_file := "20240101_000000" }

/-- The response `envC5.service` returns. -/
def respC5 : ResponseData :=
  { data := [ { revised_prompt := "first fox", url := some "http://bad/1.jpg",
                b64_json := none },
              { revised_prompt := "second fox", url := some "http://good/2.jpg",
                b64_json := none } ] }

theorem c5_witness :
    envC5.service (mkRequest "a red fox" 2 "url") = Except.ok respC5 ∧
    (respC5.data.get ⟨0, by decide⟩).url = some "http://bad/1.jpg" ∧
    (respC5.data.get ⟨1, by decide⟩).url = some "http://good/2.jpg" ∧
    envC5.fetchUrl "http://bad/1.jpg" REQUEST_TIMEOUT = none ∧
    envC5.fetchUrl "http://good/2.jpg" REQUEST_TIMEOUT = some [1, 2, 3] ∧
    (generate_images envC5 "a red fox" 2 "url" true).1.success = true := by
  refine ⟨rfl, rfl, rfl, rfl, rfl, ?_⟩
  exact (c5_url_fetch_isolation envC5 "a red fox" 2 respC5 rfl).1

/-- C10: with persistence off, or with a format that is neither of the
two recognized values, `generate_images` performs no persistence at
all: no file write, no HTTP fetch, and every returned descriptor's
`saved_path` is `None` — even when the service returns descriptors
with URLs or inline payloads. -/
theorem c10_no_persistence (env : Env) (p : String) (c : Int) (f : String)
    (s : Bool) (h : s = false ∨ (f ≠ "url" ∧ f ≠ "b64_json")) :
    (generate_images env p c f s).2.writes = [] ∧
    (generate_images env p c f s).2.fetches = [] ∧
    ∀ infos, (generate_images env p c f s).1.images = some infos →
      ∀ info ∈ infos, info.saved_path = none := by
  cases hs : env.service (mkRequest p c f) with
  | error e => simp [generate_images, hs]
  | ok resp =>
      obtain ⟨h1, h2, h3⟩ := processImages_no_save env p f s h 0 resp.data
      refine ⟨by simp [generate_images, hs, h2], by simp [generate_images, hs, h1], ?_⟩
      intro infos hinfos info hmem
      have : infos = (processImages env p f s 0 resp.data).1 := by
        have := hinfos
        simp [generate_images, hs] at this
        exact this.symm
      exact h3 info (this ▸ hmem)

/-- The environment used by the C10 witness: a URL-mode descriptor with
both a URL and an inline payload present, and a fetch that would
succeed — yet with `save_images = False` nothing is persisted. -/
def envC10 : Env :=
  { service := fun _ => Except.ok
      { data := [ { revised_prompt := "a fox", url := some "http://a/1.jpg",
                    b64_json := some "QUJD" } ] }
    fetchUrl := fun _ _ => some [9, 9, 9]
    now_iso := "2024-01-01T00:00:00"
    now_file := "20240101_000000" }

theorem c10_witness :
    (false = false ∨ ("url" ≠ "url" ∧ "url" ≠ "b64_json")) ∧
    (generate_images envC10 "a fox" 1 "url" false).2.writes = [] ∧
    (generate_images envC10 "a fox" 1 "url" false).2.fetches = [] := by
  have h := c10_no_persistence envC10 "a fox" 1 "url" false (Or.inl rfl)
  exact ⟨Or.inl rfl, h.1, h.2.1⟩

theorem generate_images_request (env : Env) (p : String) (c : Int) (f : String)
    (s : Bool) : (generate_images env p c f s).2.request = mkRequest p c f := by
  cases h : env.service (mkRequest p c f) with
  | error e => simp [generate_images, h]
  | ok r => simp [generate_images, h]

/-- C6 counterexample: the claim says payloads without a
`data:image/...;base64,` introduction are decoded as-is.  The payload
`"data:imageABC"` has no such introduction, and decoding it as-is
succeeds (Python's non-validating decoder discards the `':'`), yet
`save_image_from_b64` reports failure and writes nothing: because the
payload starts with `"data:image"`, the code attempts
`split(',', 1)[1]`, which raises `IndexError` (no comma) and is caught
as a per-image failure — no decode is ever attempted. -/
theorem c6_counterexample :
    hasDataUriForm "data:imageABC" = false ∧
    (pyB64Decode "data:imageABC").isSome = true ∧
    save_image_from_b64 "data:imageABC" "generated_images/f.jpg" = (false, []) := by
  refine ⟨?_, ?_, ?_⟩ <;> decide

/-- C6 amended: BASE64-mode stripping keys on the payload merely
starting with `"data:image"`: such a payload is replaced by everything
after its first comma before decoding, and when it contains no comma
the per-image save fails (the `IndexError` is caught) without any
decode; payloads not starting with `"data:image"` are decoded as-is.
A decode failure for one image is non-fatal: the overall result stays
successful, every descriptor is still produced, and the failing
image's `saved_path` stays unset. -/
theorem c6_amended_strip_behavior :
    (∀ (s fn : String),
      save_image_from_b64 s fn =
        match specB64Strip s with
        | none => (false, [])
        | some t => b64DecodeAndWrite t fn) ∧
    (∀ (env : Env) (p : String) (c : Int) (resp : ResponseData),
      env.service (mkRequest p c "b64_json") = Except.ok resp →
      (generate_images env p c "b64_json" true).1.success = true ∧
      ∃ infos, (generate_images env p c "b64_json" true).1.images = some infos ∧
        infos.length = resp.data.length ∧
        ∀ (j : Nat) (hj : j < resp.data.length) (hl : j < infos.length)
          (payload : String),
          (resp.data.get ⟨j, hj⟩).b64_json = some payload → payload ≠ "" →
          (save_image_from_b64 payload
              (generate_filename p (j + 1) env.now_file "jpg")).1 = false →
          (infos.get ⟨j, hl⟩).saved_path = none) := by
  constructor
  · intro s fn
    unfold save_image_from_b64 specB64Strip b64DecodeAndWrite
    cases hd : startsWithChars s.data "data:image".data <;>
      cases hc : afterFirstComma s.data <;>
        simp [hd, hc]
  · intro env p c resp h
    refine ⟨by simp [generate_images, h],
      (processImages env p "b64_json" true 0 resp.data).1,
      by simp [generate_images, h],
      processImages_length env p "b64_json" true 0 resp.data, ?_⟩
    intro j hj hl payload hp hne hsave
    rw [processImages_get env p "b64_json" true 0 resp.data j hj hl]
    simp only [processOne, attemptSave, Nat.zero_add]
    rw [hp]
    have htr : truthy (some payload) = true := by simp [truthy, hne]
    simp [htr, hsave]

/-- The response used by the C6 witness: one BASE64-mode descriptor
whose payload fails to decode (six data characters, no padding). -/
def respC6 : ResponseData :=
  { data := [ { revised_prompt := "a fox", url := none,
                b64_json := some "QUJDRA" } ] }

/-- The environment used by the C6 witness. -/
def envC6 : Env :=
  { service := fun _ => Except.ok respC6
    fetchUrl := fun _ _ => none
    now_iso := "2024-01-01T00:00:00"
    now_file := "20240101_000000" }

theorem c6_witness :
    save_image_from_b64 "data:image/png;base64,QUJD" "generated_images/f.jpg" =
      b64DecodeAndWrite "QUJD" "generated_images/f.jpg" ∧
    ∃ infos, (generate_images envC6 "a fox" 1 "b64_json" true).1.images = some infos ∧
      ∃ hl : 0 < infos.length, (infos.get ⟨0, hl⟩).saved_path = none := by
  constructor
  · have h := (c6_amended_strip_behavior).1 "data:image/png;base64,QUJD"
      "generated_images/f.jpg"
    rw [h]
    rfl
  · obtain ⟨hsucc, infos, himg, hlen, hper⟩ :=
      (c6_amended_strip_behavior).2 envC6 "a fox" 1 respC6 rfl
    have hl : 0 < infos.length := by rw [hlen]; decide
    exact ⟨infos, himg, hl,
      hper 0 (by decide) hl "QUJDRA" rfl (by decide) (by decide)⟩

/-- The environment used by the C7 counterexample and witness: the
remote service raises. -/
def envC7 : Env :=
  { service := fun _ => Except.error "Request failed"
    fetchUrl := fun _ _ => none
    now_iso := "2024-01-01T00:00:00"
    now_file := "20240101_000000" }

/-- C7 counterexample: the claim says a failed call still carries
`count`, `images` and `timestamp`; on a concrete failing call all
three keys are absent from the returned record. -/
theorem c7_counterexample :
    (generate_images envC7 "a fox" 1 "url" true).1.success = false ∧
    (generate_images envC7 "a fox" 1 "url" true).1.count = none ∧
    (generate_images envC7 "a fox" 1 "url" true).1.images = none ∧
    (generate_images envC7 "a fox" 1 "url" true).1.timestamp = none := by
  refine ⟨rfl, rfl, rfl, rfl⟩

/-- C7 amended: a successful result carries `success`, `originalPrompt`,
`count`, `images` and `timestamp` and no `error` key; a failed result
carries only `success`, `originalPrompt` and `error` — `count`,
`images` and `timestamp` are absent on failure.  The `error` key is
present iff `success` is false. -/
theorem c7_amended_field_presence (env : Env) (p : String) (c : Int) (f : String)
    (s : Bool) :
    ((generate_images env p c f s).1.error = none ↔
      (generate_images env p c f s).1.success = true) ∧
    ((generate_images env p c f s).1.success = true →
      ((generate_images env p c f s).1.count.isSome = true ∧
       (generate_images env p c f s).1.images.isSome = true ∧
       (generate_images env p c f s).1.timestamp.isSome = true)) ∧
    ((generate_images env p c f s).1.success = false →
      ((generate_images env p c f s).1.count = none ∧
       (generate_images env p c f s).1.images = none ∧
       (generate_images env p c f s).1.timestamp = none ∧
       (generate_images env p c f s).1.error.isSome = true)) := by
  cases h : env.service (mkRequest p c f) with
  | error e => simp [generate_images, h]
  | ok r => simp [generate_images, h]

theorem c7_witness :
    (generate_images envC7 "a fox" 1 "url" true).1.success = false ∧
    ((generate_images envC7 "a fox" 1 "url" true).1.count = none ∧
     (generate_images envC7 "a fox" 1 "url" true).1.images = none ∧
     (generate_images envC7 "a fox" 1 "url" true).1.timestamp = none ∧
     (generate_images envC7 "a fox" 1 "url" true).1.error.isSome = true) :=
  ⟨rfl, (c7_amended_field_presence envC7 "a fox" 1 "url" true).2.2 rfl⟩

/-- The environment used by the C8 counterexample and witness. -/
def envC8 : Env :=
  { service := fun _ => Except.error "Request failed"
    fetchUrl := fun _ _ => none
    now_iso := "2024-01-01T00:00:00"
    now_file := "20240101_000000" }

/-- C8 counterexample: the claim (sourced partly at the module-level
`/generate` handler `api_generate_images`) says count is clamped into
[1,10] and an invalid format falls back to `"url"` before the
pipeline runs; but on that handler a body with `count = 0` and
`format = "bogus"` reaches the pipeline unchanged — the issued request
carries `n = 0` and `response_format = "bogus"` — and the response
status is still 200. -/
theorem c8_counterexample :
    (api_generate_images_route envC8
      { is_json := true, prompt := some "a fox", count := some 0,
        format := some "bogus", save_images := none }).1 = 200 ∧
    (api_generate_images_route envC8
      { is_json := true, prompt := some "a fox", count := some 0,
        format := some "bogus", save_images := none }).2.2 =
      some { request := mkRequest "a fox" 0 "bogus", fetches := [], writes := [] } := by
  exact ⟨rfl, rfl⟩

/-- C8 amended: the stated contract holds for the `/generate-image`
handler registered by `api_server_mode` (the endpoint actually served
when the program runs in API mode): a JSON body lacking `prompt` gets
status 400 with no pipeline invocation; otherwise count defaults to 1
and is clamped into [1,10], format defaults to `"url"` with invalid
values falling back to `"url"`, `save_images` defaults to true, and
the pipeline's result is returned with status 200 whether it reports
success or a handled failure.  The module-level `/generate` handler
does not clamp count or validate format (see the counterexample). -/
theorem c8_amended_server_endpoint (env : Env) (body : ApiBody) :
    (body.is_json = true → body.prompt = none →
      generate_image_route env body = (400, none, none)) ∧
    (∀ p, body.is_json = true → body.prompt = some p →
      ∃ result trace,
        generate_image_route env body = (200, some result, some trace) ∧
        trace.request.prompt = p ∧
        trace.request.n = min (max 1 (body.count.getD 1)) 10 ∧
        1 ≤ trace.request.n ∧ trace.request.n ≤ 10 ∧
        trace.request.response_format =
          (if body.format.getD "url" = "url" ∨ body.format.getD "url" = "b64_json"
           then body.format.getD "url" else "url") ∧
        (trace.request.response_format = "url" ∨
          trace.request.response_format = "b64_json") ∧
        result = (generate_images env p trace.request.n
            trace.request.response_format (body.save_images.getD true)).1) := by
  constructor
  · intro hj hp
    simp [generate_image_route, hj, hp]
  · intro p hj hp
    have hroute : generate_image_route env body =
        (200,
         some (generate_images env p (min (max 1 (body.count.getD 1)) 10)
            (if body.format.getD "url" = "url" ∨ body.format.getD "url" = "b64_json"
             then body.format.getD "url" else "url")
            (body.save_images.getD true)).1,
         some (generate_images env p (min (max 1 (body.count.getD 1)) 10)
            (if body.format.getD "url" = "url" ∨ body.format.getD "url" = "b64_json"
             then body.format.getD "url" else "url")
            (body.save_images.getD true)).2) := by
      simp [generate_image_route, hj, hp]
    have hreq := generate_images_request env p (min (max 1 (body.count.getD 1)) 10)
      (if body.format.getD "url" = "url" ∨ body.format.getD "url" = "b64_json"
       then body.format.getD "url" else "url") (body.save_images.getD true)
    refine ⟨_, _, hroute, ?_, ?_, ?_, ?_, ?_, ?_, ?_⟩
    · rw [hreq]; rfl
    · rw [hreq]; rfl
    · rw [hreq]
      show 1 ≤ min (max 1 (body.count.getD 1)) 10
      omega
    · rw [hreq]
      show min (max 1 (body.count.getD 1)) 10 ≤ 10
      omega
    · rw [hreq]; rfl
    · rw [hreq]
      show (if body.format.getD "url" = "url" ∨ body.format.getD "url" = "b64_json"
            then body.format.getD "url" else "url") = "url" ∨
           (if body.format.getD "url" = "url" ∨ body.format.getD "url" = "b64_json"
            then body.format.getD "url" else "url") = "b64_json"
      by_cases hc : body.format.getD "url" = "url" ∨ body.format.getD "url" = "b64_json"
      · rw [if_pos hc]; exact hc
      · rw [if_neg hc]; exact Or.inl rfl
    · rw [hreq]; rfl

theorem c8_witness :
    ({ is_json := true, prompt := some "a fox", count := some 99,
       format := some "bogus", save_images := none } : ApiBody).prompt =
        some "a fox" ∧
    ∃ result trace,
      generate_image_route envC8
        { is_json := true, prompt := some "a fox", count := some 99,
          format := some "bogus", save_images := none } =
        (200, some result, some trace) ∧
      trace.request.n = 10 ∧ trace.request.response_format = "url" := by
  obtain ⟨result, trace, hroute, hp, hn, h1, h10, hfmt, hfmt2, hres⟩ :=
    (c8_amended_server_endpoint envC8
      { is_json := true, prompt := some "a fox", count := some 99,
        format := some "bogus", save_images := none }).2 "a fox" rfl rfl
  refine ⟨rfl, result, trace, hroute, ?_, ?_⟩
  · rw [hn]; decide
  · rw [hfmt]; decide

end Grok
